import Mathlib

/-!
Verification of the `EncryptionService` core (passphrase-derived envelope
encryption and session-key lifecycle) of the ssa-assist repository.

The embedding translates `EncryptionService` from the source:
* `arrayBufferToBase64` / `base64ToArrayBuffer` (the `btoa` / `atob` pair) are
  modelled byte-for-byte; JS strings are represented by their lists of
  char codes (`List Nat`), byte buffers by `List Nat` with entries `< 256`.
* The WebCrypto AES-256-GCM primitive (`crypto.subtle.encrypt/decrypt`) is a
  platform primitive, not repository code; it is modelled as an executable
  idealized authenticated-encryption scheme: the ciphertext is the plaintext
  followed by a 16-byte authentication tag determined by the key and the IV,
  and decryption verifies the tag and strips it.  PBKDF2 key derivation
  (also a platform primitive) is modelled as the deterministic pairing of
  its two inputs, which captures determinism of derivation.
* Stateful methods are explicit state transformers on `SessionState`
  returning, besides the result, the successor state and the list of
  externally visible effects (timer scheduling/cancellation, DOM event
  dispatch) the method performs.
-/

/-- Base64 alphabet as in `btoa`: index `n < 64` to the char code of the
base64 digit (`A-Z`, `a-z`, `0-9`, `+`, `/`). -/
def b64Char (n : Nat) : Nat :=
  if n < 26 then 65 + n
  else if n < 52 then 97 + (n - 26)
  else if n < 62 then 48 + (n - 52)
  else if n = 62 then 43
  else 47

/-- Inverse base64 digit lookup as in `atob`: char code to its 6-bit value,
`none` for a char outside the alphabet. -/
def b64Val (c : Nat) : Option Nat :=
  if 65 ≤ c ∧ c ≤ 90 then some (c - 65)
  else if 97 ≤ c ∧ c ≤ 122 then some (26 + (c - 97))
  else if 48 ≤ c ∧ c ≤ 57 then some (52 + (c - 48))
  else if c = 43 then some 62
  else if c = 47 then some 63
  else none

/-- `arrayBufferToBase64`: bytes to base64 char codes, exactly the grouping
performed by `btoa` (3 bytes to 4 digits, `=` = code 61 as padding). -/
def btoaBytes : List Nat → List Nat
  | [] => []
  | [b1] =>
      [b64Char (b1 / 4), b64Char (b1 % 4 * 16), 61, 61]
  | [b1, b2] =>
      [b64Char (b1 / 4), b64Char (b1 % 4 * 16 + b2 / 16), b64Char (b2 % 16 * 4), 61]
  | b1 :: b2 :: b3 :: rest =>
      b64Char (b1 / 4) :: b64Char (b1 % 4 * 16 + b2 / 16) ::
      b64Char (b2 % 16 * 4 + b3 / 64) :: b64Char (b3 % 64) :: btoaBytes rest

/-- `base64ToArrayBuffer`'s underlying `atob`: base64 char codes to bytes,
`none` where `atob` throws `InvalidCharacterError` (bad length, a char
outside the alphabet, or padding not at the end). -/
def atobBytes : List Nat → Option (List Nat)
  | [] => some []
  | [_] => none
  | [c1, c2] =>
      (b64Val c1).bind fun v1 => (b64Val c2).map fun v2 =>
        [v1 * 4 + v2 / 16]
  | [c1, c2, c3] =>
      (b64Val c1).bind fun v1 => (b64Val c2).bind fun v2 => (b64Val c3).map fun v3 =>
        [v1 * 4 + v2 / 16, v2 % 16 * 16 + v3 / 4]
  | c1 :: c2 :: c3 :: c4 :: rest =>
      if c4 = 61 then
        if rest = [] then
          if c3 = 61 then
            (b64Val c1).bind fun v1 => (b64Val c2).map fun v2 =>
              [v1 * 4 + v2 / 16]
          else
            (b64Val c1).bind fun v1 => (b64Val c2).bind fun v2 => (b64Val c3).map fun v3 =>
              [v1 * 4 + v2 / 16, v2 % 16 * 16 + v3 / 4]
        else none
      else
        (b64Val c1).bind fun v1 => (b64Val c2).bind fun v2 =>
        (b64Val c3).bind fun v3 => (b64Val c4).bind fun v4 =>
        (atobBytes rest).map fun bs =>
          (v1 * 4 + v2 / 16) :: (v2 % 16 * 16 + v3 / 4) :: (v3 % 4 * 64 + v4) :: bs

/-- A derived AES key.  PBKDF2 is a platform primitive; it is modelled
abstractly as the deterministic, injective pairing of its inputs (the
passphrase and the salt bytes), which is all the repository code relies on. -/
structure DerivedKey where
  passphrase : String
  salt : List Nat
deriving DecidableEq

/-- Numeric fingerprint of key and IV used by the modelled GCM tag. -/
def keyIvMix (key : DerivedKey) (iv : List Nat) : Nat :=
  ((key.passphrase.data.map Char.toNat) ++ key.salt ++ iv).foldl
    (fun a b => (a * 31 + b + 7) % 65536) 5381

/-- The 16-byte authentication tag of the modelled AES-GCM scheme. -/
def gcmTag (key : DerivedKey) (iv : List Nat) : List Nat :=
  (List.range 16).map (fun i => (keyIvMix key iv + i * 131) % 256)

/-- Modelled `crypto.subtle.encrypt` for AES-GCM: ciphertext carries the
plaintext followed by the 16-byte tag (AEAD convention: tag appended). -/
def gcmEncrypt (key : DerivedKey) (iv : List Nat) (pt : List Nat) : List Nat :=
  pt ++ gcmTag key iv

/-- Modelled `crypto.subtle.decrypt` for AES-GCM: verifies the trailing
16-byte tag against the key and IV and strips it; `none` is the rejection
(`OperationError`) path. -/
def gcmDecrypt (key : DerivedKey) (iv : List Nat) (ct : List Nat) : Option (List Nat) :=
  if 16 ≤ ct.length ∧ ct.drop (ct.length - 16) = gcmTag key iv then
    some (ct.take (ct.length - 16))
  else none

/-- The `MasterKey` record stored in the `masterKey` field
(`{ key, derivedAt: Date.now() }`). -/
structure MasterKey where
  key : DerivedKey
  derivedAt : Nat
deriving DecidableEq

/-- Mutable fields of `EncryptionService`: the resident master key and the
pending auto-lock timer.  A pending timer is represented by its numeric
handle; `nextTimerId` models the host's supply of fresh `setTimeout`
handles. -/
structure SessionState where
  masterKey : Option MasterKey
  sessionTimeout : Option Nat
  nextTimerId : Nat
deriving DecidableEq

/-- Externally visible side effects of the service methods: cancelling a
scheduled timer (`clearTimeout`), scheduling one (`setTimeout` with a delay
in milliseconds), and dispatching a named DOM event
(`window.dispatchEvent(new CustomEvent(name))`). -/
inductive Effect where
  | clearTimer : Nat → Effect
  | setTimer : Nat → Nat → Effect
  | dispatchEvent : String → Effect
deriving DecidableEq

/-- Result of a stateful service method: its return value, the successor
state, and the effects performed, in order. -/
structure StepResult (α : Type) where
  result : α
  state : SessionState
  effects : List Effect
deriving DecidableEq

/-- The auto-lock delay: `30 * 60 * 1000` milliseconds. -/
def autoLockDelayMs : Nat := 30 * 60 * 1000

/-- Message of the error thrown by `encrypt`/`decrypt` when no master key is
resident. -/
def notInitializedMsg : String := "Encryption service not initialized. Please unlock first."

/-- Message of the error rethrown by `decrypt` when `crypto.subtle.decrypt`
rejects. -/
def decryptionFailedMsg : String := "Decryption failed. Invalid passphrase or corrupted data."

/-- Error name raised by `atob` on malformed base64 input. -/
def invalidCharacterMsg : String := "InvalidCharacterError"

/-- `EncryptedData` as produced by `encrypt`: base64 strings (char-code
lists) for the IV and the ciphertext. -/
structure EncryptedData where
  iv : List Nat
  ciphertext : List Nat
deriving DecidableEq

/-- Whether an `Except` result is a success (the call did not throw). -/
def exceptIsOk {ε α : Type} : Except ε α → Bool
  | Except.ok _ => true
  | Except.error _ => false

instance {ε α : Type} [DecidableEq ε] [DecidableEq α] : DecidableEq (Except ε α) := fun x y =>
  match x, y with
  | Except.ok a, Except.ok b =>
      if h : a = b then isTrue (by rw [h]) else isFalse (fun he => h (Except.ok.inj he))
  | Except.ok _, Except.error _ => isFalse (fun he => Except.noConfusion he)
  | Except.error _, Except.ok _ => isFalse (fun he => Except.noConfusion he)
  | Except.error e, Except.error f =>
      if h : e = f then isTrue (by rw [h]) else isFalse (fun he => h (Except.error.inj he))

/-- `deriveKey(passphrase, salt)`: PBKDF2-SHA256 with 600000 iterations,
modelled as the deterministic pairing of its inputs (see header comment).
The source performs no validation of the salt: whatever byte sequence is
passed becomes the PBKDF2 salt. -/
def deriveKey (passphrase : String) (salt : List Nat) : DerivedKey :=
  ⟨passphrase, salt⟩

/-- `resetSessionTimeout()`: cancels the pending timer, if any, and
schedules a fresh auto-lock timer for the full 30-minute window. -/
def resetSessionTimeout (s : SessionState) : SessionState × List Effect :=
  let clears : List Effect :=
    match s.sessionTimeout with
    | some id => [Effect.clearTimer id]
    | none => []
  (⟨s.masterKey, some s.nextTimerId, s.nextTimerId + 1⟩,
    clears ++ [Effect.setTimer s.nextTimerId autoLockDelayMs])

/-- `lock()`: clears the master key and cancels the pending timer, if any.
It dispatches no event. -/
def lock (s : SessionState) : SessionState × List Effect :=
  match s.sessionTimeout with
  | some id => (⟨none, none, s.nextTimerId⟩, [Effect.clearTimer id])
  | none => (⟨none, none, s.nextTimerId⟩, [])

/-- `isUnlocked()`. -/
def isUnlocked (s : SessionState) : Bool :=
  s.masterKey ≠ none

/-- The callback `resetSessionTimeout` installs via `setTimeout`: it calls
`lock()` and then dispatches the `session-locked` custom event. -/
def timeoutFired (s : SessionState) : SessionState × List Effect :=
  let r := lock s
  (r.1, r.2 ++ [Effect.dispatchEvent "session-locked"])

/-- `initialize(passphrase, salt?)`: uses the provided salt or a freshly
generated one (the randomness is an explicit `freshSalt` argument), derives
the master key, stores it with `derivedAt := now`, resets the auto-lock
timer, and returns the salt used.  The result is an `Except` to record that
the method completes without throwing. -/
def initService (passphrase : String) (salt : Option (List Nat)) (freshSalt : List Nat)
    (now : Nat) (s : SessionState) : StepResult (Except String (List Nat)) :=
  let saltBytes := salt.getD freshSalt
  let key := deriveKey passphrase saltBytes
  let s1 : SessionState := ⟨some ⟨key, now⟩, s.sessionTimeout, s.nextTimerId⟩
  let r2 := resetSessionTimeout s1
  ⟨Except.ok saltBytes, r2.1, r2.2⟩

/-- `encrypt(data)`: fails with the not-initialized error while no master
key is resident; otherwise encrypts `data` under the resident key with the
fresh random IV (passed explicitly as `iv`) and returns both fields
base64-encoded.  `data` is the byte sequence the `TextEncoder` produced. -/
def encrypt (iv : List Nat) (data : List Nat) (s : SessionState) :
    StepResult (Except String EncryptedData) :=
  match s.masterKey with
  | none => ⟨Except.error notInitializedMsg, s, []⟩
  | some mk =>
      ⟨Except.ok ⟨btoaBytes iv, btoaBytes (gcmEncrypt mk.key iv data)⟩, s, []⟩

/-- `decrypt(encryptedData)`: fails with the not-initialized error while no
master key is resident; otherwise base64-decodes the IV and ciphertext
(`atob` may throw, outside the try block) and decrypts, converting a
`crypto.subtle.decrypt` rejection into the decryption-failed error. -/
def decrypt (ed : EncryptedData) (s : SessionState) :
    StepResult (Except String (List Nat)) :=
  match s.masterKey with
  | none => ⟨Except.error notInitializedMsg, s, []⟩
  | some mk =>
      match atobBytes ed.iv with
      | none => ⟨Except.error invalidCharacterMsg, s, []⟩
      | some iv =>
          match atobBytes ed.ciphertext with
          | none => ⟨Except.error invalidCharacterMsg, s, []⟩
          | some ct =>
              match gcmDecrypt mk.key iv ct with
              | none => ⟨Except.error decryptionFailedMsg, s, []⟩
              | some pt => ⟨Except.ok pt, s, []⟩

/-- Body of `verifyPassphrase`'s try block: derive a temporary key, decode
the canary envelope's fields, and attempt the decryption, propagating any
failure. -/
def verifyAttempt (passphrase : String) (salt : List Nat) (canary : EncryptedData) :
    Except String (List Nat) :=
  let tempKey := deriveKey passphrase salt
  match atobBytes canary.iv with
  | none => Except.error invalidCharacterMsg
  | some iv =>
      match atobBytes canary.ciphertext with
      | none => Except.error invalidCharacterMsg
      | some ct =>
          match gcmDecrypt tempKey iv ct with
          | none => Except.error decryptionFailedMsg
          | some pt => Except.ok pt

/-- `verifyPassphrase(passphrase, salt, testEncryptedData)`: returns `true`
when the try block completes, `false` when anything in it throws.  It reads
no service field and writes none. -/
def verifyPassphrase (passphrase : String) (salt : List Nat) (canary : EncryptedData)
    (s : SessionState) : StepResult Bool :=
  match verifyAttempt passphrase salt canary with
  | Except.ok _ => ⟨true, s, []⟩
  | Except.error _ => ⟨false, s, []⟩

/-- `/[a-z]/.test` on one char. -/
def isLowerCh (c : Char) : Bool := 'a' ≤ c && c ≤ 'z'

/-- `/[A-Z]/.test` on one char. -/
def isUpperCh (c : Char) : Bool := 'A' ≤ c && c ≤ 'Z'

/-- `/\d/.test` on one char. -/
def isDigitCh (c : Char) : Bool := '0' ≤ c && c ≤ '9'

/-- `/[^a-zA-Z\d]/.test` on one char. -/
def isSpecialCh (c : Char) : Bool := !(isLowerCh c || isUpperCh c || isDigitCh c)

/-- JS line terminators, which `.` does not match in a regex without the
`s` flag. -/
def isLineTerm (c : Char) : Bool :=
  c = '\n' || c = '\r' || c = (Char.ofNat 0x2028) || c = (Char.ofNat 0x2029)

/-- `/^(.)\1+$/.test(passphrase)`: at least two characters, all equal, and
the first one matchable by `.`. -/
def matchesRepeatedAll (p : List Char) : Bool :=
  match p with
  | [] => false
  | c :: rest => !rest.isEmpty && rest.all (· = c) && !isLineTerm c

/-- ASCII lowering, the effect of the `i` flag on the alphabet involved in
the common-pattern alternatives. -/
def toLowerAscii (c : Char) : Char :=
  if 'A' ≤ c ∧ c ≤ 'Z' then Char.ofNat (c.toNat + 32) else c

/-- The alternatives of `/^(012|123|234|abc|qwerty|password)/i`. -/
def commonStarts : List (List Char) :=
  [['0', '1', '2'], ['1', '2', '3'], ['2', '3', '4'],
   ['a', 'b', 'c'], ['q', 'w', 'e', 'r', 't', 'y'],
   ['p', 'a', 's', 's', 'w', 'o', 'r', 'd']]

/-- `/^(012|123|234|abc|qwerty|password)/i.test(passphrase)`. -/
def hasCommonStart (p : List Char) : Bool :=
  commonStarts.any (fun pre => pre.isPrefixOf (p.map toLowerAscii))

/-- The length-rule credit: under 8 characters no credit (and a remark,
below); 12 or more earn one point and 16 or more a second. -/
def lengthScore (len : Nat) : Nat :=
  if len < 8 then 0
  else if 12 ≤ len then (if 16 ≤ len then 2 else 1)
  else 0

/-- The length-rule remark, pushed only for fewer than 8 characters. -/
def lengthFeedback (len : Nat) : List String :=
  if len < 8 then ["Use at least 8 characters"] else []

/-- Number of character classes present among lowercase, uppercase, digits
and symbols. -/
def varietyCount (p : List Char) : Nat :=
  (if p.any isLowerCh then 1 else 0) + (if p.any isUpperCh then 1 else 0) +
    (if p.any isDigitCh then 1 else 0) + (if p.any isSpecialCh then 1 else 0)

/-- The variety-rule credit: fewer than 3 classes earn nothing (and a
remark, below); 3 classes earn one point and all 4 a second. -/
def varietyScore (p : List Char) : Nat :=
  if varietyCount p < 3 then 0
  else 1 + (if varietyCount p = 4 then 1 else 0)

/-- The variety-rule remark, pushed only for fewer than 3 classes. -/
def varietyFeedback (p : List Char) : List String :=
  if varietyCount p < 3 then ["Mix uppercase, lowercase, numbers, and symbols"] else []

/-- `StrengthAssessment` as returned by `calculatePassphraseStrength`. -/
structure StrengthResult where
  score : Nat
  feedback : List String
deriving DecidableEq

/-- `calculatePassphraseStrength(passphrase)`: length credit, then variety
credit, then the repeated-character rule zeroing the score, then the
common-pattern rule subtracting two (floored at 0 — natural subtraction),
then the clamp to 0..4 and the fallback positive remark. -/
def calculatePassphraseStrength (p : List Char) : StrengthResult :=
  let score1 := lengthScore p.length + varietyScore p
  let fb1 := lengthFeedback p.length ++ varietyFeedback p
  let r2 : Nat × List String :=
    if matchesRepeatedAll p then (0, fb1 ++ ["Avoid repeated characters"])
    else (score1, fb1)
  let r3 : Nat × List String :=
    if hasCommonStart p then (r2.1 - 2, r2.2 ++ ["Avoid common patterns"])
    else r2
  ⟨min 4 r3.1, if r3.2.isEmpty then ["Strong passphrase!"] else r3.2⟩

theorem b64Val_b64Char : ∀ n < 64, b64Val (b64Char n) = some n := by decide

theorem b64Char_ne_eq : ∀ n < 64, b64Char n ≠ 61 := by decide

theorem atobBytes_btoaBytes (bs : List Nat) (h : ∀ b ∈ bs, b < 256) :
    atobBytes (btoaBytes bs) = some bs := by
  induction bs using btoaBytes.induct with
  | case1 => rfl
  | case2 b1 =>
      have hb1 : b1 < 256 := h b1 (by simp)
      have h1 : b1 / 4 < 64 := by omega
      have h2 : b1 % 4 * 16 < 64 := by omega
      have e2 : atobBytes (btoaBytes [b1]) =
          (b64Val (b64Char (b1 / 4))).bind fun v1 =>
            (b64Val (b64Char (b1 % 4 * 16))).map fun v2 => [v1 * 4 + v2 / 16] := rfl
      rw [e2, b64Val_b64Char _ h1, b64Val_b64Char _ h2]
      refine congrArg some ?_
      show [b1 / 4 * 4 + b1 % 4 * 16 / 16] = [b1]
      rw [show b1 / 4 * 4 + b1 % 4 * 16 / 16 = b1 from by omega]
  | case3 b1 b2 =>
      have hb1 : b1 < 256 := h b1 (by simp)
      have hb2 : b2 < 256 := h b2 (by simp)
      have h1 : b1 / 4 < 64 := by omega
      have h2 : b1 % 4 * 16 + b2 / 16 < 64 := by omega
      have h3 : b2 % 16 * 4 < 64 := by omega
      have e2 : atobBytes (btoaBytes [b1, b2]) =
          if b64Char (b2 % 16 * 4) = 61 then
            (b64Val (b64Char (b1 / 4))).bind fun v1 =>
              (b64Val (b64Char (b1 % 4 * 16 + b2 / 16))).map fun v2 =>
                [v1 * 4 + v2 / 16]
          else
            (b64Val (b64Char (b1 / 4))).bind fun v1 =>
              (b64Val (b64Char (b1 % 4 * 16 + b2 / 16))).bind fun v2 =>
                (b64Val (b64Char (b2 % 16 * 4))).map fun v3 =>
                  [v1 * 4 + v2 / 16, v2 % 16 * 16 + v3 / 4] := rfl
      rw [e2, if_neg (b64Char_ne_eq _ h3), b64Val_b64Char _ h1, b64Val_b64Char _ h2,
        b64Val_b64Char _ h3]
      refine congrArg some ?_
      show [b1 / 4 * 4 + (b1 % 4 * 16 + b2 / 16) / 16,
        (b1 % 4 * 16 + b2 / 16) % 16 * 16 + b2 % 16 * 4 / 4] = [b1, b2]
      rw [show b1 / 4 * 4 + (b1 % 4 * 16 + b2 / 16) / 16 = b1 from by omega,
        show (b1 % 4 * 16 + b2 / 16) % 16 * 16 + b2 % 16 * 4 / 4 = b2 from by omega]
  | case4 b1 b2 b3 rest ih =>
      have hb1 : b1 < 256 := h b1 (by simp)
      have hb2 : b2 < 256 := h b2 (by simp)
      have hb3 : b3 < 256 := h b3 (by simp)
      have hrest : ∀ b ∈ rest, b < 256 := fun b hb => h b (by simp [hb])
      have h1 : b1 / 4 < 64 := by omega
      have h2 : b1 % 4 * 16 + b2 / 16 < 64 := by omega
      have h3 : b2 % 16 * 4 + b3 / 64 < 64 := by omega
      have h4 : b3 % 64 < 64 := by omega
      simp only [btoaBytes, atobBytes]
      rw [if_neg (b64Char_ne_eq _ h4), b64Val_b64Char _ h1, b64Val_b64Char _ h2,
        b64Val_b64Char _ h3, b64Val_b64Char _ h4, ih hrest]
      refine congrArg some ?_
      show (b1 / 4 * 4 + (b1 % 4 * 16 + b2 / 16) / 16) ::
        ((b1 % 4 * 16 + b2 / 16) % 16 * 16 + (b2 % 16 * 4 + b3 / 64) / 4) ::
        ((b2 % 16 * 4 + b3 / 64) % 4 * 64 + b3 % 64) :: rest = b1 :: b2 :: b3 :: rest
      rw [show b1 / 4 * 4 + (b1 % 4 * 16 + b2 / 16) / 16 = b1 from by omega,
        show (b1 % 4 * 16 + b2 / 16) % 16 * 16 + (b2 % 16 * 4 + b3 / 64) / 4 = b2 from by omega,
        show (b2 % 16 * 4 + b3 / 64) % 4 * 64 + b3 % 64 = b3 from by omega]

theorem gcmTag_length (key : DerivedKey) (iv : List Nat) : (gcmTag key iv).length = 16 := by
  simp [gcmTag]

theorem gcmTag_lt_256 (key : DerivedKey) (iv : List Nat) : ∀ b ∈ gcmTag key iv, b < 256 := by
  intro b hb
  simp only [gcmTag, List.mem_map] at hb
  obtain ⟨i, _, rfl⟩ := hb
  exact Nat.mod_lt _ (by norm_num)

theorem gcmDecrypt_gcmEncrypt (key : DerivedKey) (iv pt : List Nat) :
    gcmDecrypt key iv (gcmEncrypt key iv pt) = some pt := by
  unfold gcmEncrypt gcmDecrypt
  have hlen : (pt ++ gcmTag key iv).length = pt.length + 16 := by
    simp [gcmTag_length]
  have hn : (pt ++ gcmTag key iv).length - 16 = pt.length := by omega
  rw [hn, if_pos ⟨by omega, List.drop_left pt (gcmTag key iv)⟩, List.take_left]

theorem encrypt_frame (iv data : List Nat) (s : SessionState) :
    (encrypt iv data s).state = s ∧ (encrypt iv data s).effects = [] := by
  unfold encrypt
  cases s.masterKey <;> exact ⟨rfl, rfl⟩

theorem decrypt_frame (ed : EncryptedData) (s : SessionState) :
    (decrypt ed s).state = s ∧ (decrypt ed s).effects = [] := by
  unfold decrypt
  repeat' split
  all_goals exact ⟨rfl, rfl⟩

theorem lock_masterKey_none (s : SessionState) : (lock s).1.masterKey = none := by
  unfold lock
  cases s.sessionTimeout <;> rfl

/-- C1 (amended): `encrypt` and `decrypt` never touch the inactivity
auto-lock timer: whether they succeed or fail, the pending-timer field is
unchanged and no timer is cancelled or scheduled (no effect is performed at
all); the timer is rescheduled only by `initialize` /
`resetSessionTimeout`. -/
theorem encrypt_decrypt_leave_timer (iv data : List Nat) (ed : EncryptedData)
    (s : SessionState) :
    (encrypt iv data s).state.sessionTimeout = s.sessionTimeout ∧
    (encrypt iv data s).effects = [] ∧
    (decrypt ed s).state.sessionTimeout = s.sessionTimeout ∧
    (decrypt ed s).effects = [] :=
  ⟨by rw [(encrypt_frame iv data s).1], (encrypt_frame iv data s).2,
    by rw [(decrypt_frame ed s).1], (decrypt_frame ed s).2⟩

/-- C1 counterexample: from an unlocked state with a pending timer
(handle 0), a successful `encrypt` call performs no effects — in particular
it cancels no pending timer and schedules no new one — and leaves the
pending-timer field unchanged, refuting that every successful call resets
the inactivity timer. -/
theorem encrypt_no_timer_reset_cex :
    exceptIsOk (encrypt (List.replicate 12 1) [104]
      ⟨some ⟨⟨"pw", List.replicate 16 0⟩, 0⟩, some 0, 1⟩).result = true ∧
    (encrypt (List.replicate 12 1) [104]
      ⟨some ⟨⟨"pw", List.replicate 16 0⟩, 0⟩, some 0, 1⟩).effects = [] ∧
    (encrypt (List.replicate 12 1) [104]
      ⟨some ⟨⟨"pw", List.replicate 16 0⟩, 0⟩, some 0, 1⟩).state.sessionTimeout = some 0 := by
  decide

/-- C2 (amended): on every explicit `lock()` the master key is discarded
and the pending timer cancelled but no event whatsoever is dispatched; the
`session-locked` event is dispatched (together with the same key discard)
only by the inactivity-timeout callback. -/
theorem session_locked_event_only_on_timeout (s : SessionState) :
    (lock s).1.masterKey = none ∧
    (∀ n, Effect.dispatchEvent n ∉ (lock s).2) ∧
    (timeoutFired s).1.masterKey = none ∧
    Effect.dispatchEvent "session-locked" ∈ (timeoutFired s).2 := by
  unfold timeoutFired lock
  cases s.sessionTimeout <;> simp

/-- C2 counterexample: an explicit `lock()` call from an unlocked state
with a pending timer transitions to `Locked` yet dispatches no
`session-locked` event. -/
theorem lock_emits_no_event_cex :
    (lock ⟨some ⟨⟨"pw", List.replicate 16 0⟩, 0⟩, some 0, 1⟩).1.masterKey = none ∧
    Effect.dispatchEvent "session-locked" ∉
      (lock ⟨some ⟨⟨"pw", List.replicate 16 0⟩, 0⟩, some 0, 1⟩).2 := by
  decide

/-- C4 (amended): key derivation performs no validation of the salt:
`initialize` with a salt of any length (16 bytes or not) succeeds, derives
the key from exactly the bytes given, and raises no error of any kind. -/
theorem initService_no_salt_validation (p : String) (salt freshSalt : List Nat) (now : Nat)
    (s : SessionState) :
    (initService p (some salt) freshSalt now s).result = Except.ok salt ∧
    (initService p (some salt) freshSalt now s).state.masterKey =
      some ⟨deriveKey p salt, now⟩ :=
  ⟨rfl, rfl⟩

/-- C4 counterexample: `initialize` with a malformed 3-byte salt succeeds —
it returns the salt and installs a key derived from it, instead of failing
with a `ConfigurationError` (no such error exists in the code). -/
theorem initService_malformed_salt_cex :
    (initService "pw" (some [1, 2, 3]) [] 0 ⟨none, none, 0⟩).result = Except.ok [1, 2, 3] ∧
    (initService "pw" (some [1, 2, 3]) [] 0 ⟨none, none, 0⟩).state.masterKey =
      some ⟨⟨"pw", [1, 2, 3]⟩, 0⟩ := by
  decide

/-- C5: while no master key is resident, `encrypt` and `decrypt` fail with
the not-initialized error and leave the state unchanged with no effects;
in particular they fail this way on the state any `lock()` call produces. -/
theorem locked_encrypt_decrypt_not_initialized (iv data : List Nat) (ed : EncryptedData)
    (s t : SessionState) (h : s.masterKey = none) :
    encrypt iv data s = ⟨Except.error notInitializedMsg, s, []⟩ ∧
    decrypt ed s = ⟨Except.error notInitializedMsg, s, []⟩ ∧
    (encrypt iv data (lock t).1).result = Except.error notInitializedMsg ∧
    (decrypt ed (lock t).1).result = Except.error notInitializedMsg := by
  refine ⟨?_, ?_, ?_, ?_⟩
  · unfold encrypt
    rw [h]
  · unfold decrypt
    rw [h]
  · unfold encrypt
    rw [lock_masterKey_none t]
  · unfold decrypt
    rw [lock_masterKey_none t]

/-- C5 witness: concrete locked state (and a concrete unlocked state being
locked) on which the not-initialized failures are observed. -/
theorem locked_encrypt_decrypt_not_initialized_witness :
    encrypt [1] [104] ⟨none, none, 0⟩ = ⟨Except.error notInitializedMsg, ⟨none, none, 0⟩, []⟩ ∧
    decrypt ⟨[65], [65]⟩ ⟨none, none, 0⟩ =
      ⟨Except.error notInitializedMsg, ⟨none, none, 0⟩, []⟩ ∧
    (encrypt [1] [104] (lock ⟨some ⟨⟨"pw", []⟩, 0⟩, some 3, 4⟩).1).result =
      Except.error notInitializedMsg ∧
    (decrypt ⟨[65], [65]⟩ (lock ⟨some ⟨⟨"pw", []⟩, 0⟩, some 3, 4⟩).1).result =
      Except.error notInitializedMsg :=
  locked_encrypt_decrypt_not_initialized [1] [104] ⟨[65], [65]⟩ ⟨none, none, 0⟩
    ⟨some ⟨⟨"pw", []⟩, 0⟩, some 3, 4⟩ rfl

/-- C6: round trip — from any unlocked state, whatever envelope a
successful `encrypt` of a plaintext byte sequence returns (base64-encoded
IV and ciphertext), `decrypt` of that envelope under the same resident key
recovers exactly the original plaintext, the base64 decoding of both fields
included. -/
theorem encrypt_decrypt_roundtrip (s : SessionState) (mk : MasterKey) (pt iv : List Nat)
    (ed : EncryptedData) (hk : s.masterKey = some mk)
    (hpt : ∀ b ∈ pt, b < 256) (hiv : ∀ b ∈ iv, b < 256)
    (henc : (encrypt iv pt s).result = Except.ok ed) :
    (decrypt ed s).result = Except.ok pt := by
  have hctb : ∀ b ∈ gcmEncrypt mk.key iv pt, b < 256 := by
    intro b hb
    rcases List.mem_append.mp hb with h1 | h2
    · exact hpt b h1
    · exact gcmTag_lt_256 mk.key iv b h2
  have hed : ed = ⟨btoaBytes iv, btoaBytes (gcmEncrypt mk.key iv pt)⟩ := by
    unfold encrypt at henc
    rw [hk] at henc
    simpa using henc.symm
  subst hed
  unfold decrypt
  rw [hk]
  simp only [atobBytes_btoaBytes iv hiv, atobBytes_btoaBytes _ hctb, gcmDecrypt_gcmEncrypt]

/-- C6 witness: a concrete unlocked session, 2-byte plaintext and 12-byte
IV on which the round trip is observed. -/
theorem encrypt_decrypt_roundtrip_witness :
    (decrypt
      ⟨btoaBytes (List.replicate 12 1),
        btoaBytes (gcmEncrypt ⟨"pw", List.replicate 16 0⟩ (List.replicate 12 1) [104, 105])⟩
      ⟨some ⟨⟨"pw", List.replicate 16 0⟩, 0⟩, some 0, 1⟩).result = Except.ok [104, 105] :=
  encrypt_decrypt_roundtrip ⟨some ⟨⟨"pw", List.replicate 16 0⟩, 0⟩, some 0, 1⟩
    ⟨⟨"pw", List.replicate 16 0⟩, 0⟩ [104, 105] (List.replicate 12 1)
    ⟨btoaBytes (List.replicate 12 1),
      btoaBytes (gcmEncrypt ⟨"pw", List.replicate 16 0⟩ (List.replicate 12 1) [104, 105])⟩
    rfl (by decide) (by decide) rfl

/-- C3 (amended): `verifyPassphrase` returns `true` exactly when the whole
attempt — key derivation, base64 decoding of the canary envelope and its
decryption — succeeds; the recovered plaintext is never compared against
the expected canary value. -/
theorem verifyPassphrase_true_iff_attempt_ok (p : String) (salt : List Nat)
    (c : EncryptedData) (s : SessionState) :
    (verifyPassphrase p salt c s).result = true ↔
      ∃ pt, verifyAttempt p salt c = Except.ok pt := by
  unfold verifyPassphrase
  cases h : verifyAttempt p salt c with
  | ok pt => simp
  | error e => simp

/-- C3 counterexample: a canary envelope created under the correct
(passphrase, salt) pair but containing the plaintext `"abcd"` rather than
the expected `"test"`: `verifyPassphrase` still returns `true`, although
the recovered plaintext differs from the expected canary value —
refuting the claimed plaintext-equality condition. -/
theorem verifyPassphrase_no_plaintext_check_cex :
    (verifyPassphrase "pw" (List.replicate 16 0)
      ⟨btoaBytes (List.replicate 12 1),
        btoaBytes (gcmEncrypt ⟨"pw", List.replicate 16 0⟩ (List.replicate 12 1)
          [97, 98, 99, 100])⟩
      ⟨none, none, 0⟩).result = true ∧
    verifyAttempt "pw" (List.replicate 16 0)
      ⟨btoaBytes (List.replicate 12 1),
        btoaBytes (gcmEncrypt ⟨"pw", List.replicate 16 0⟩ (List.replicate 12 1)
          [97, 98, 99, 100])⟩ = Except.ok [97, 98, 99, 100] ∧
    ([97, 98, 99, 100] : List Nat) ≠ [116, 101, 115, 116] := by
  decide

/-- C8: `verifyPassphrase` never changes the session state — the resident
master key and the pending timer are exactly what they were — and performs
no effects, whether the verification succeeds or fails; the temporary key
exists only inside the call. -/
theorem verifyPassphrase_frame (p : String) (salt : List Nat) (c : EncryptedData)
    (s : SessionState) :
    (verifyPassphrase p salt c s).state = s ∧ (verifyPassphrase p salt c s).effects = [] := by
  unfold verifyPassphrase
  cases verifyAttempt p salt c <;> exact ⟨rfl, rfl⟩

/-- C9: every failure inside `verifyPassphrase`'s try block — key
derivation, base64 decoding of either canary field, or decryption — is
converted into the plain result `false`; the method itself never throws
(its result type is a plain `Bool`). -/
theorem verifyPassphrase_error_to_false (p : String) (salt : List Nat) (c : EncryptedData)
    (s : SessionState) (e : String) (h : verifyAttempt p salt c = Except.error e) :
    (verifyPassphrase p salt c s).result = false := by
  unfold verifyPassphrase
  rw [h]

/-- C9 witness: a canary whose `iv` field is not valid base64 (a single
char, `"!"`); the attempt fails with the `atob` error and `verifyPassphrase`
returns `false`. -/
theorem verifyPassphrase_error_to_false_witness :
    verifyAttempt "p" [] ⟨[33], [65]⟩ = Except.error invalidCharacterMsg ∧
    (verifyPassphrase "p" [] ⟨[33], [65]⟩ ⟨none, none, 0⟩).result = false :=
  ⟨by decide,
    verifyPassphrase_error_to_false "p" [] ⟨[33], [65]⟩ ⟨none, none, 0⟩
      invalidCharacterMsg (by decide)⟩
/-- C7: any passphrase matched by `/^(.)\1+$/` — at least two characters,
all identical (and matchable by `.`) — is forced to score 0 whatever length
or variety credits were accumulated, and the feedback carries the
repetition remark. -/
theorem repeated_char_passphrase_scores_zero (p : List Char)
    (h : matchesRepeatedAll p = true) :
    (calculatePassphraseStrength p).score = 0 ∧
    "Avoid repeated characters" ∈ (calculatePassphraseStrength p).feedback := by
  cases hc : hasCommonStart p <;>
    simp [calculatePassphraseStrength, h, hc]

/-- C7 witness: `"aaaaaa"` scores 0 and its feedback mentions repetition. -/
theorem repeated_char_passphrase_scores_zero_witness :
    matchesRepeatedAll "aaaaaa".data = true ∧
    ((calculatePassphraseStrength "aaaaaa".data).score = 0 ∧
      "Avoid repeated characters" ∈ (calculatePassphraseStrength "aaaaaa".data).feedback) :=
  ⟨by decide, repeated_char_passphrase_scores_zero "aaaaaa".data (by decide)⟩

/-- C10: a passphrase of length 8 to 11 earns no length credit and no
length remark; its score stems from the variety credits alone (possibly
reduced by the pattern rules) and never exceeds 2. -/
theorem midlength_no_length_credit (p : List Char) (h8 : 8 ≤ p.length)
    (h11 : p.length ≤ 11) :
    (calculatePassphraseStrength p).score ≤ 2 ∧
    "Use at least 8 characters" ∉ (calculatePassphraseStrength p).feedback := by
  have hls : lengthScore p.length = 0 := by
    unfold lengthScore
    rw [if_neg (by omega), if_neg (by omega)]
  have hlf : lengthFeedback p.length = [] := by
    unfold lengthFeedback
    rw [if_neg (by omega)]
  have hvs : varietyScore p ≤ 2 := by
    unfold varietyScore
    split
    · omega
    · split <;> omega
  have hvf : "Use at least 8 characters" ∉ varietyFeedback p := by
    unfold varietyFeedback
    split
    · simp
    · simp
  cases hr : matchesRepeatedAll p <;> cases hc : hasCommonStart p <;>
    simp [calculatePassphraseStrength, hr, hc, hls, hlf] <;>
    first
      | exact hvf
      | (constructor
         · omega
         · first
            | exact hvf
            | (split
               · decide
               · exact hvf))

/-- C10 witness: an 8-character passphrase with all four character classes
scores 2 with no length remark. -/
theorem midlength_no_length_credit_witness :
    8 ≤ "Abc1!xyz".data.length ∧ "Abc1!xyz".data.length ≤ 11 ∧
    ((calculatePassphraseStrength "Abc1!xyz".data).score ≤ 2 ∧
      "Use at least 8 characters" ∉ (calculatePassphraseStrength "Abc1!xyz".data).feedback) :=
  ⟨by decide, by decide,
    midlength_no_length_credit "Abc1!xyz".data (by decide) (by decide)⟩
